import Mathlib

/-!
Shallow embedding of `src/streamlit_app.py` (better-prompt-maker).

The program is a Streamlit page: it resolves an API key (secrets store,
falling back to the environment), composes a fixed instruction template
around the user's input, issues one `httpx.post`, extracts
`choices[0].message.content` from the JSON response with chained
`.get(..., default)` calls, strips it, and renders success / error /
warning states in the UI.

Python values appearing in the response body are modelled by `Json`;
Python exceptions by `PyExc`; the attribute/index/strip semantics of the
chained extraction expression are modelled operation by operation, so
that the exact exception behaviour of
`api_response.get("choices", [{}])[0].get("message", {}).get("content", "").strip()`
is preserved (including the `IndexError` on an empty `choices` list and
`AttributeError` on non-`dict` / non-`str` operands).
-/

namespace BetterPromptMaker

/-- A parsed JSON value, as produced by `response.json()` in Python. -/
inductive Json where
  | null : Json
  | bool : Bool → Json
  | num : Int → Json
  | str : String → Json
  | arr : List Json → Json
  | obj : List (String × Json) → Json

/-- The Python exceptions that can arise in `refine_prompt_core`. -/
inductive PyExc where
  /-- `IndexError`, e.g. `[][0]`. -/
  | indexError : PyExc
  /-- `AttributeError`, e.g. `.get` on a non-dict or `.strip` on a non-str. -/
  | attributeError : PyExc
  /-- `TypeError`, e.g. subscripting `None` or a number. -/
  | typeError : PyExc
  /-- `KeyError`, e.g. `d[0]` on a dict without that key. -/
  | keyError : PyExc
  /-- `json.JSONDecodeError` from `response.json()` on a non-JSON body. -/
  | jsonDecodeError : PyExc
  /-- `httpx.HTTPStatusError` raised by `response.raise_for_status()`;
      carries `e.response.text`. -/
  | httpStatusError : String → PyExc
  /-- `httpx.RequestError` (transport failure); carries `str(e)`. -/
  | requestError : String → PyExc
deriving DecidableEq, Repr

/-- Python `x.get(key, default)`: defined on `dict` only; every other
value has no `.get` attribute and raises `AttributeError`. On a dict the
default is substituted only when the key is absent. -/
def pyGet (x : Json) (key : String) (default : Json) : Except PyExc Json :=
  match x with
  | .obj kvs => .ok ((kvs.lookup key).getD default)
  | _ => .error .attributeError

/-- Python `x[0]`: on a list, the head or `IndexError` when empty; on a
string, the one-character string or `IndexError` when empty; on a dict,
`KeyError` (no key `0` exists — all keys here are strings); on
`None`/bool/number, `TypeError` (not subscriptable). -/
def pyIndex0 (x : Json) : Except PyExc Json :=
  match x with
  | .arr [] => .error .indexError
  | .arr (v :: _) => .ok v
  | .str s => if s.isEmpty then .error .indexError else .ok (.str (s.take 1))
  | .obj _ => .error .keyError
  | _ => .error .typeError

/-- The whitespace characters removed by Python `str.strip()` (for the
ASCII range relevant here). -/
def isPyWhitespace (c : Char) : Bool :=
  c = ' ' || c = '\t' || c = '\n' || c = '\x0d' || c = '\x0b' || c = '\x0c'

/-- Python `s.strip()` on a `str`: drop leading and trailing whitespace. -/
def pyStripString (s : String) : String :=
  String.mk (((s.data.dropWhile isPyWhitespace).reverse.dropWhile isPyWhitespace).reverse)

/-- Python `x.strip()`: defined on `str` only; any other value raises
`AttributeError`. -/
def pyStrip (x : Json) : Except PyExc String :=
  match x with
  | .str s => .ok (pyStripString s)
  | _ => .error .attributeError

/-- The extraction expression of `refine_prompt_core` (line 87 of
`src/streamlit_app.py`):
`api_response.get("choices", [{}])[0].get("message", {}).get("content", "").strip()`,
evaluated left to right with Python semantics, propagating any raised
exception. -/
def extractContent (api_response : Json) : Except PyExc String :=
  match pyGet api_response "choices" (Json.arr [Json.obj []]) with
  | .error e => .error e
  | .ok choices =>
    match pyIndex0 choices with
    | .error e => .error e
    | .ok choice0 =>
      match pyGet choice0 "message" (Json.obj []) with
      | .error e => .error e
      | .ok message =>
        match pyGet message "content" (Json.str "") with
        | .error e => .error e
        | .ok content => pyStrip content

example : extractContent (Json.obj [("choices", Json.arr [])]) = .error .indexError := rfl

example : extractContent (Json.obj []) = .ok "" := rfl

example :
    extractContent (Json.obj [("choices", Json.arr
      [Json.obj [("message", Json.obj [("content", Json.str "  Hello World  ")])]])])
      = .ok "Hello World" := rfl

/-- Credential resolution at module load (lines 9-14): when `st.secrets`
is falsy (the store is empty or unavailable), `load_dotenv()` populates
the process environment from a local `.env` file and
`os.environ.get("DEEPSEEK_API_KEY")` is read (never raising, `none` when
unset); otherwise `st.secrets["DEEPSEEK_API_KEY"]` is read, which raises
`KeyError` when the non-empty store lacks that key. `env` is the process
environment as it stands after `load_dotenv()`. -/
def resolveApiKey (secrets env : List (String × String)) : Except PyExc (Option String) :=
  if secrets.isEmpty then
    .ok (env.lookup "DEEPSEEK_API_KEY")
  else
    match secrets.lookup "DEEPSEEK_API_KEY" with
    | some v => .ok (some v)
    | none => .error .keyError

/-- Truthiness of the module-level `DEEPSEEK_API_KEY`: `if not DEEPSEEK_API_KEY:`
fires when the value is `None` or the empty string. -/
def keyIsTruthy : Option String → Bool
  | none => false
  | some s => !s.isEmpty

/-- Text of the `KNOWLEDGE_BASE` constant (lines 25-34), verbatim. -/
def KNOWLEDGE_BASE : String :=
  "\nEffective Prompt Engineering: The 4C\x27s Framework\nTo transform a vague prompt into a well-defined one, incorporate these four essential elements:\nContext: Specify who you are, your role, and the situation. Include your background, expertise level, and the specific circumstances requiring AI assistance. This helps the AI understand your perspective and tailor responses appropriately.\nConstraints: Define clear boundaries including word count, format requirements, tone (academic, casual, professional), deadlines, and any limitations on tools or sources. Specify what to avoid and include safety parameters when relevant.\nContent Goal: Articulate exactly what output you need - whether it\x27s a summary, analysis, plan, code, or creative content. Be specific about the type of deliverable, its purpose, and intended audience. Replace broad requests with precise objectives.\nCheck: Include verification criteria by asking the AI to confirm sources are real (not hallucinated), validate structure meets requirements, or explain its reasoning. Add acceptance tests you\x27ll use to evaluate the output\x27s quality and accuracy.\nImplementation: Structure your prompt as: \"[ROLE/CONTEXT] + [SPECIFIC GOAL] + [FORMAT/LENGTH/TONE] + [KEY DETAILS] + [VERIFICATION REQUEST]\"\nThis framework transforms generic requests like \"tell me about X\" into targeted instructions that produce reliable, useful, and actionable AI outputs while minimizing errors and misunderstandings.\n"

/-- Literal text of the f-string of `refine_prompt_core` (lines 42-59)
up to the `<knowledge_base>` opening tag. -/
def promptInstructions : String :=
  "\n    You are a world-class prompt engineer. Your task is to take a basic user prompt and, using the \"4C\x27s Framework\" provided below,\n    transform it into a highly detailed, professional, and effective prompt for a large language model.\n\n    **Instructions:**\n    1.  Read and apply the \"4C\x27s Framework\" provided in the <knowledge_base> section.\n    2.  Based on the user\x27s <vague_prompt>, you must *invent* and *make up* specific, realistic details for the missing 4C\x27s elements (Context, Constraints, Content Goal, Check). This is crucial. For example, if the user says \"write a poem,\" you should invent a persona like \"a hopeful poet\" and constraints like \"a sonnet with 14 lines.\"\n    3.  Combine these invented details with the user\x27s prompt to create a final, well-structured prompt.\n    4.  The final output must be only the complete, refined prompt, formatted neatly and without any additional conversation or explanation.\n\n    "

/-- Composition of `full_prompt_for_deepseek` (lines 42-59): the f-string
split at its two interpolation points `{KNOWLEDGE_BASE}` and
`{user_prompt}`, with the surrounding literal text kept verbatim. -/
def full_prompt_for_deepseek (user_prompt : String) : String :=
  promptInstructions
    ++ "<knowledge_base>\n    " ++ KNOWLEDGE_BASE ++ "\n    </knowledge_base>"
    ++ "\n\n    "
    ++ "<vague_prompt>\n    " ++ user_prompt ++ "\n    </vague_prompt>"
    ++ "\n    "

/-- Behaviour of the single `httpx.post` to `DEEPSEEK_API_URL`: either a
response (status code, `response.text`, and `response.json()` as
`some` parsed value or `none` when the body is not valid JSON), or a
transport-level failure (`httpx.RequestError`: DNS, connection, timeout). -/
inductive HttpOutcome where
  | response (status : Nat) (text : String) (jsonBody : Option Json) : HttpOutcome
  | transportError (msg : String) : HttpOutcome

/-- Message of `st.error` on a missing key (line 39). -/
def apiKeyMissingMsg : String :=
  "DeepSeek API key not found. Please add it to your Streamlit secrets."

/-- Message of `st.error` in the `httpx.HTTPStatusError` handler (line 92):
the f-string interpolates `e.response.text`. -/
def deepseekApiErrorMsg (responseText : String) : String :=
  "DeepSeek API error: " ++ responseText

/-- Message of `st.error` in the `httpx.RequestError` handler (line 95). -/
def requestErrorMsg (e : String) : String :=
  "An error occurred while calling the DeepSeek API: " ++ e

instance instDecEqExcept {ε α : Type} [DecidableEq ε] [DecidableEq α] :
    DecidableEq (Except ε α) := fun x y =>
  match x, y with
  | .ok a, .ok b =>
    if h : a = b then isTrue (by rw [h]) else isFalse (fun c => h (Except.ok.inj c))
  | .error a, .error b =>
    if h : a = b then isTrue (by rw [h]) else isFalse (fun c => h (Except.error.inj c))
  | .ok _, .error _ => isFalse (fun c => Except.noConfusion c)
  | .error _, .ok _ => isFalse (fun c => Except.noConfusion c)

/-- Observable result of one call to `refine_prompt_core`: how many
outbound HTTP requests were attempted, the composed prompt that was sent
(when a request was attempted), the `st.error` messages shown, and the
outcome — `.ok` for a normal `return`, `.error e` for a Python exception
propagating out of the function uncaught. -/
structure CoreResult where
  httpCalls : Nat
  sentPrompt : Option String
  errors : List String
  outcome : Except PyExc (Option String)
deriving DecidableEq, Repr

/-- Body of the `try` block (lines 77-89) before the `except` handlers:
`httpx.post` either raises `httpx.RequestError`, or yields a response;
`response.raise_for_status()` raises `httpx.HTTPStatusError` (carrying
`e.response.text`) unless `200 <= status < 300`; `response.json()`
raises `json.JSONDecodeError` on a non-JSON body; then the chained
extraction runs, whose exceptions also escape the block. -/
def tryBlock (http : HttpOutcome) : Except PyExc (Option String) :=
  match http with
  | .transportError msg => .error (.requestError msg)
  | .response status text jsonBody =>
    if 200 ≤ status ∧ status < 300 then
      match jsonBody with
      | none => .error .jsonDecodeError
      | some j =>
        match extractContent j with
        | .ok s => .ok (some s)
        | .error e => .error e
    else .error (.httpStatusError text)

/-- Model of `refine_prompt_core(user_prompt)` (lines 37-96). `apiKey` is
the module-level `DEEPSEEK_API_KEY` (`none` when unresolved); `http` is
what the outbound call would do. The two `except` clauses catch exactly
`httpx.HTTPStatusError` and `httpx.RequestError`, show `st.error`, and
return `None`; every other exception propagates (`.error` outcome). -/
def refine_prompt_core (apiKey : Option String) (http : HttpOutcome)
    (user_prompt : String) : CoreResult :=
  if keyIsTruthy apiKey = false then
    { httpCalls := 0, sentPrompt := none, errors := [apiKeyMissingMsg], outcome := .ok none }
  else
    match tryBlock http with
    | .ok v =>
        { httpCalls := 1, sentPrompt := some (full_prompt_for_deepseek user_prompt),
          errors := [], outcome := .ok v }
    | .error (.httpStatusError t) =>
        { httpCalls := 1, sentPrompt := some (full_prompt_for_deepseek user_prompt),
          errors := [deepseekApiErrorMsg t], outcome := .ok none }
    | .error (.requestError m) =>
        { httpCalls := 1, sentPrompt := some (full_prompt_for_deepseek user_prompt),
          errors := [requestErrorMsg m], outcome := .ok none }
    | .error e =>
        { httpCalls := 1, sentPrompt := some (full_prompt_for_deepseek user_prompt),
          errors := [], outcome := .error e }

/-- What the UI renders for one button press: `st.success`+`st.code`
with the displayed string, the generic `st.error` branch, the
`st.warning` branch, or a crash of the script run when an exception
propagates uncaught. -/
inductive UiOutcome where
  | success (displayed : String) : UiOutcome
  | errorShown : UiOutcome
  | warningShown : UiOutcome
  | crashed (e : PyExc) : UiOutcome
deriving DecidableEq, Repr

/-- Observable result of one press of the button: what was rendered, how
many outbound HTTP requests were attempted, and the `st.error` messages. -/
structure UiResult where
  shown : UiOutcome
  httpCalls : Nat
  errors : List String
deriving DecidableEq, Repr

/-- Message of the generic `st.error` in the button handler (line 118). -/
def couldNotRetrieveMsg : String :=
  "Error: Could not retrieve a refined prompt. Please check your API key and try again."

/-- Model of the `st.button("Engineer Prompt")` handler (lines 108-120),
run when the button is pressed. Python truthiness of `user_prompt` (a
`str`) is non-emptiness, and `if refined_prompt:` is truthy exactly for a
non-`None`, non-empty string. An exception escaping `refine_prompt_core`
crashes the script run before any success/error element is rendered. -/
def buttonHandler (apiKey : Option String) (http : HttpOutcome)
    (user_prompt : String) : UiResult :=
  if user_prompt.isEmpty = false then
    let r := refine_prompt_core apiKey http user_prompt
    match r.outcome with
    | .error e => { shown := .crashed e, httpCalls := r.httpCalls, errors := r.errors }
    | .ok (some s) =>
      if s.isEmpty = false then
        { shown := .success s, httpCalls := r.httpCalls, errors := r.errors }
      else
        { shown := .errorShown, httpCalls := r.httpCalls,
          errors := r.errors ++ [couldNotRetrieveMsg] }
    | .ok none =>
        { shown := .errorShown, httpCalls := r.httpCalls,
          errors := r.errors ++ [couldNotRetrieveMsg] }
  else
    { shown := .warningShown, httpCalls := 0, errors := [] }

/-! ### Concrete response bodies used in the theorems below -/

/-- Parsed body of an HTTP 200 response whose JSON text reads
`choices` mapped to an empty list. -/
def emptyChoicesJson : Json := Json.obj [("choices", Json.arr [])]

/-- Parsed body whose first choice carries the content
`"  Hello World  "`. -/
def helloResponseJson : Json :=
  Json.obj [("choices", Json.arr
    [Json.obj [("message", Json.obj [("content", Json.str "  Hello World  ")])]])]

/-- Parsed body whose first choice carries whitespace-only content. -/
def wsContentJson : Json :=
  Json.obj [("choices", Json.arr
    [Json.obj [("message", Json.obj [("content", Json.str "   ")])]])]

/-! ### Claims -/

/-- C1 counterexample: with HTTP 200 and parsed body with `choices`
present but the empty list, the extractor does not return the empty
string (line 87 raises `IndexError` on `[][0]`), and the UI does not
take the error-display path: the exception crashes the script run. -/
theorem claim_C1_counterexample :
    extractContent emptyChoicesJson ≠ .ok "" ∧
    (buttonHandler (some "sk-key") (.response 200 "resp" (some emptyChoicesJson))
        "write a poem").shown ≠ UiOutcome.errorShown := by
  exact ⟨by decide, by decide⟩

/-- C1 (amended): if the outbound call returns HTTP 200 with body
`choices` mapped to the empty list, the extraction expression raises
`IndexError`, which neither `except` handler catches, so it propagates
out of `refine_prompt_core` and the UI crashes instead of reaching the
error-display path. -/
theorem claim_C1_amended (apiKey : Option String) (text user_prompt : String)
    (hk : keyIsTruthy apiKey = true) (hu : user_prompt.isEmpty = false) :
    (refine_prompt_core apiKey (.response 200 text (some emptyChoicesJson))
        user_prompt).outcome = .error .indexError ∧
    (buttonHandler apiKey (.response 200 text (some emptyChoicesJson))
        user_prompt).shown = .crashed .indexError := by
  have htry : tryBlock (.response 200 text (some emptyChoicesJson))
      = .error .indexError := rfl
  constructor
  · simp [refine_prompt_core, hk, htry]
  · simp [buttonHandler, hu, refine_prompt_core, hk, htry]

theorem claim_C1_amended_witness :
    keyIsTruthy (some "sk-key") = true ∧ ("write a poem" : String).isEmpty = false ∧
    ((refine_prompt_core (some "sk-key")
        (.response 200 "resp" (some emptyChoicesJson)) "write a poem").outcome
          = .error .indexError ∧
     (buttonHandler (some "sk-key")
        (.response 200 "resp" (some emptyChoicesJson)) "write a poem").shown
          = .crashed .indexError) :=
  ⟨rfl, rfl, claim_C1_amended (some "sk-key") "resp" "write a poem" rfl rfl⟩

/-- C2 counterexample: the extraction is not exception-free on every
parsed JSON body: on `choices` mapped to the empty list it raises
`IndexError` instead of returning a string. -/
theorem claim_C2_counterexample :
    extractContent (Json.obj [("choices", Json.arr [])])
      = .error PyExc.indexError := rfl

/-- C2 (amended): the chained defaults cover exactly the missing-key
cases: a body without `choices`, a first choice without `message`, or a
message without `content` each yield the empty string without raising;
but a present-and-malformed value (such as an empty `choices` list) can
still raise. -/
theorem claim_C2_amended :
    (∀ kvs : List (String × Json), kvs.lookup "choices" = none →
        extractContent (.obj kvs) = .ok "") ∧
    (∀ (kvs mkvs : List (String × Json)) (rest : List Json),
        kvs.lookup "choices" = some (.arr (.obj mkvs :: rest)) →
        mkvs.lookup "message" = none →
        extractContent (.obj kvs) = .ok "") ∧
    (∀ (kvs mkvs ckvs : List (String × Json)) (rest : List Json),
        kvs.lookup "choices" = some (.arr (.obj mkvs :: rest)) →
        mkvs.lookup "message" = some (.obj ckvs) →
        ckvs.lookup "content" = none →
        extractContent (.obj kvs) = .ok "") := by
  refine ⟨fun kvs h => ?_, fun kvs mkvs rest h1 h2 => ?_, fun kvs mkvs ckvs rest h1 h2 h3 => ?_⟩
  · simp [extractContent, pyGet, pyIndex0, pyStrip, pyStripString, h]
  · simp [extractContent, pyGet, pyIndex0, pyStrip, pyStripString, h1, h2]
  · simp [extractContent, pyGet, pyIndex0, pyStrip, pyStripString, h1, h2, h3]

theorem claim_C2_amended_witness :
    ([] : List (String × Json)).lookup "choices" = none ∧
    extractContent (.obj []) = .ok "" ∧
    extractContent (.obj [("choices", .arr [.obj []])]) = .ok "" ∧
    extractContent (.obj [("choices", .arr [.obj [("message", .obj [])]])]) = .ok "" :=
  ⟨rfl, claim_C2_amended.1 [] rfl,
   claim_C2_amended.2.1 [("choices", .arr [.obj []])] [] [] rfl rfl,
   claim_C2_amended.2.2 [("choices", .arr [.obj [("message", .obj [])]])]
     [("message", .obj [])] [] [] rfl rfl rfl⟩

/-- C3 counterexample: with the whitespace-only input `" "` (truthy in
Python), the handler issues the outbound call and shows no warning. -/
theorem claim_C3_counterexample :
    (buttonHandler (some "sk-key") (.response 200 "resp" (some (Json.obj []))) " ").httpCalls
        = 1 ∧
    (buttonHandler (some "sk-key") (.response 200 "resp" (some (Json.obj []))) " ").shown
        ≠ UiOutcome.warningShown := by
  exact ⟨rfl, by decide⟩

/-- C3 (amended): only the empty input takes the warning branch
(`if user_prompt:` tests truthiness, i.e. non-emptiness, not
whitespace-stripped emptiness): pressing the trigger with the empty
input issues no outbound call and shows the warning, while every
non-empty input — whitespace-only ones included — skips the warning
branch. -/
theorem claim_C3_amended :
    (∀ (apiKey : Option String) (http : HttpOutcome),
        buttonHandler apiKey http "" =
          { shown := .warningShown, httpCalls := 0, errors := [] }) ∧
    (∀ (apiKey : Option String) (http : HttpOutcome) (user_prompt : String),
        user_prompt.isEmpty = false →
        (buttonHandler apiKey http user_prompt).shown ≠ UiOutcome.warningShown) := by
  constructor
  · intro apiKey http; rfl
  · intro apiKey http user_prompt hu
    simp only [buttonHandler, hu]
    cases h : (refine_prompt_core apiKey http user_prompt).outcome with
    | error e => simp [h]
    | ok v =>
      cases v with
      | none => simp [h]
      | some s =>
        cases hs : s.isEmpty with
        | false => simp [h, hs]
        | true => simp [h, hs]

theorem claim_C3_amended_witness :
    buttonHandler (some "sk-key") (.transportError "dns failure") "" =
      { shown := .warningShown, httpCalls := 0, errors := [] } ∧
    (" " : String).isEmpty = false ∧
    (buttonHandler (some "sk-key") (.transportError "dns failure") " ").shown
      ≠ UiOutcome.warningShown :=
  ⟨claim_C3_amended.1 (some "sk-key") (.transportError "dns failure"), rfl,
   claim_C3_amended.2 (some "sk-key") (.transportError "dns failure") " " rfl⟩

/-- C4: whenever the secret store is empty/unavailable (`st.secrets`
falsy), the credential resolves to the environment variable
`DEEPSEEK_API_KEY` (after `load_dotenv()` may have populated it from a
local `.env` file), and this resolution never raises: it is an `.ok`
lookup, `none` at worst. -/
theorem claim_C4 (secrets env : List (String × String)) (h : secrets = []) :
    resolveApiKey secrets env = .ok (env.lookup "DEEPSEEK_API_KEY") := by
  subst h; rfl

theorem claim_C4_witness :
    ([] : List (String × String)) = [] ∧
    resolveApiKey [] [("DEEPSEEK_API_KEY", "sk-key")] = .ok (some "sk-key") :=
  ⟨rfl, claim_C4 [] [("DEEPSEEK_API_KEY", "sk-key")] rfl⟩

/-- C5: when the credential is absent (falsy: `None` or empty), the call
function attempts no outbound HTTP request, sends no payload, shows the
user-facing key-missing error, and returns `None` — for every input and
every possible behaviour of the network. -/
theorem claim_C5 (apiKey : Option String) (http : HttpOutcome) (user_prompt : String)
    (h : keyIsTruthy apiKey = false) :
    refine_prompt_core apiKey http user_prompt =
      { httpCalls := 0, sentPrompt := none, errors := [apiKeyMissingMsg],
        outcome := .ok none } := by
  simp [refine_prompt_core, h]

theorem claim_C5_witness :
    keyIsTruthy none = false ∧
    refine_prompt_core none (.response 200 "resp" (some (Json.obj []))) "write a poem" =
      { httpCalls := 0, sentPrompt := none, errors := [apiKeyMissingMsg],
        outcome := .ok none } :=
  ⟨rfl, claim_C5 none (.response 200 "resp" (some (Json.obj []))) "write a poem" rfl⟩

/-- C7: on HTTP 200 with body `choices[0].message.content` equal to
`"  Hello World  "`, the extractor returns exactly `"Hello World"`
(whitespace trimmed) and the UI displays exactly that string in the
success state. -/
theorem claim_C7 :
    extractContent helloResponseJson = .ok "Hello World" ∧
    buttonHandler (some "sk-key") (.response 200 "resp" (some helloResponseJson))
        "write a poem" =
      { shown := .success "Hello World", httpCalls := 1, errors := [] } := by
  exact ⟨rfl, rfl⟩

/-- C6: for every non-empty user input, the composed outbound
instruction contains the user input verbatim between
`<vague_prompt>`/`</vague_prompt>` and the full `KNOWLEDGE_BASE` text
verbatim between `<knowledge_base>`/`</knowledge_base>` (each with the
template's own `"\n    "` padding directly inside the tags). -/
theorem claim_C6 (user_prompt : String) (_hu : user_prompt.isEmpty = false) :
    (∃ pre post, full_prompt_for_deepseek user_prompt =
        pre ++ ("<vague_prompt>\n    " ++ user_prompt ++ "\n    </vague_prompt>") ++ post) ∧
    (∃ pre post, full_prompt_for_deepseek user_prompt =
        pre ++ ("<knowledge_base>\n    " ++ KNOWLEDGE_BASE ++ "\n    </knowledge_base>") ++ post) := by
  refine ⟨⟨promptInstructions ++ "<knowledge_base>\n    " ++ KNOWLEDGE_BASE
            ++ "\n    </knowledge_base>" ++ "\n\n    ", "\n    ", ?_⟩,
          ⟨promptInstructions,
           "\n\n    " ++ "<vague_prompt>\n    " ++ user_prompt
            ++ "\n    </vague_prompt>" ++ "\n    ", ?_⟩⟩ <;>
    simp only [full_prompt_for_deepseek, String.append_assoc]

theorem claim_C6_witness :
    ("write a poem" : String).isEmpty = false ∧
    ((∃ pre post, full_prompt_for_deepseek "write a poem" =
        pre ++ ("<vague_prompt>\n    " ++ "write a poem" ++ "\n    </vague_prompt>") ++ post) ∧
     (∃ pre post, full_prompt_for_deepseek "write a poem" =
        pre ++ ("<knowledge_base>\n    " ++ KNOWLEDGE_BASE ++ "\n    </knowledge_base>") ++ post)) :=
  ⟨rfl, claim_C6 "write a poem" rfl⟩

/-- C8: on any non-2xx status, `raise_for_status` raises, the
`httpx.HTTPStatusError` handler shows an error whose text contains the
raw response body, the function returns `None`, exactly one outbound
request was attempted (no retry), and the UI takes the error-display
path. -/
theorem claim_C8 (apiKey : Option String) (status : Nat) (text : String)
    (jsonBody : Option Json) (user_prompt : String)
    (hk : keyIsTruthy apiKey = true) (hu : user_prompt.isEmpty = false)
    (hs : ¬ (200 ≤ status ∧ status < 300)) :
    (refine_prompt_core apiKey (.response status text jsonBody) user_prompt).outcome
        = .ok none ∧
    buttonHandler apiKey (.response status text jsonBody) user_prompt =
      { shown := .errorShown, httpCalls := 1,
        errors := [deepseekApiErrorMsg text, couldNotRetrieveMsg] } ∧
    (∃ pre, deepseekApiErrorMsg text = pre ++ text) := by
  have htry : tryBlock (.response status text jsonBody) = .error (.httpStatusError text) := by
    simp [tryBlock, hs]
  refine ⟨?_, ?_, ⟨"DeepSeek API error: ", rfl⟩⟩
  · simp [refine_prompt_core, hk, htry]
  · simp [buttonHandler, hu, refine_prompt_core, hk, htry]

theorem claim_C8_witness :
    keyIsTruthy (some "sk-key") = true ∧
    ("write a poem" : String).isEmpty = false ∧
    ¬ (200 ≤ 429 ∧ 429 < 300) ∧
    ((refine_prompt_core (some "sk-key") (.response 429 "rate limited" none)
        "write a poem").outcome = .ok none ∧
     buttonHandler (some "sk-key") (.response 429 "rate limited" none) "write a poem" =
       { shown := .errorShown, httpCalls := 1,
         errors := [deepseekApiErrorMsg "rate limited", couldNotRetrieveMsg] } ∧
     (∃ pre, deepseekApiErrorMsg "rate limited" = pre ++ "rate limited")) :=
  ⟨rfl, rfl, by decide,
   claim_C8 (some "sk-key") 429 "rate limited" none "write a poem" rfl rfl (by decide)⟩

/-- C9: for every non-empty input, the UI renders the success state if
and only if `refine_prompt_core` returns a non-empty string; in
particular a 2xx response whose content strips to the empty string falls
to the error-display branch. -/
theorem claim_C9 (apiKey : Option String) (http : HttpOutcome) (user_prompt : String)
    (hu : user_prompt.isEmpty = false) :
    (∃ s, (buttonHandler apiKey http user_prompt).shown = UiOutcome.success s) ↔
    (∃ s, (refine_prompt_core apiKey http user_prompt).outcome = .ok (some s) ∧
        s.isEmpty = false) := by
  simp only [buttonHandler, hu]
  cases h : (refine_prompt_core apiKey http user_prompt).outcome with
  | error e => simp [h]
  | ok v =>
    cases v with
    | none => simp [h]
    | some s =>
      cases hs : s.isEmpty with
      | false => simp [h, hs]
      | true => simp [h, hs]

theorem claim_C9_witness :
    ("write a poem" : String).isEmpty = false ∧
    ((∃ s, (buttonHandler (some "sk-key") (.response 200 "resp" (some wsContentJson))
        "write a poem").shown = UiOutcome.success s) ↔
     (∃ s, (refine_prompt_core (some "sk-key") (.response 200 "resp" (some wsContentJson))
        "write a poem").outcome = .ok (some s) ∧ s.isEmpty = false)) :=
  ⟨rfl, claim_C9 (some "sk-key") (.response 200 "resp" (some wsContentJson))
    "write a poem" rfl⟩

/-- C10: on a 2xx response whose body is not valid JSON,
`response.json()` raises `json.JSONDecodeError`, which is neither an
`httpx.HTTPStatusError` nor an `httpx.RequestError`, so neither handler
catches it: it propagates out of `refine_prompt_core` uncaught and
crashes the script run. -/
theorem claim_C10 (apiKey : Option String) (status : Nat) (text user_prompt : String)
    (hk : keyIsTruthy apiKey = true) (hu : user_prompt.isEmpty = false)
    (hs : 200 ≤ status ∧ status < 300) :
    (refine_prompt_core apiKey (.response status text none) user_prompt).outcome
        = .error .jsonDecodeError ∧
    (buttonHandler apiKey (.response status text none) user_prompt).shown
        = .crashed .jsonDecodeError := by
  have htry : tryBlock (.response status text none) = .error .jsonDecodeError := by
    simp [tryBlock, hs]
  constructor
  · simp [refine_prompt_core, hk, htry]
  · simp [buttonHandler, hu, refine_prompt_core, hk, htry]

theorem claim_C10_witness :
    keyIsTruthy (some "sk-key") = true ∧
    ("write a poem" : String).isEmpty = false ∧
    (200 ≤ 200 ∧ 200 < 300) ∧
    ((refine_prompt_core (some "sk-key") (.response 200 "<html>oops" none)
        "write a poem").outcome = .error .jsonDecodeError ∧
     (buttonHandler (some "sk-key") (.response 200 "<html>oops" none)
        "write a poem").shown = .crashed .jsonDecodeError) :=
  ⟨rfl, rfl, by decide,
   claim_C10 (some "sk-key") 200 "<html>oops" "write a poem" rfl rfl (by decide)⟩

end BetterPromptMaker
